import Mathlib

/-!
Verification of `garmin_health.py` (garmin-to-notion).

We shallowly embed the two functions of the script:
  * `get_average_respiration` — pure aggregation of the
    `averageRespirationValue` field over a list of dict-like records;
  * `sync_health` — the orchestrator, modelled as a pure function from the
    process environment and a description of the external world (fetch
    results, whether login or the record-creation calls raise) to an
    outcome: an optional uncaught error plus the ordered trace of external
    events (network calls, row creations, printed lines).

Python numbers are modelled as rationals `ℚ` (exact arithmetic; the
binary floating-point representation is out of scope).  Python dicts are
association lists from `String` to `Option ℚ`, so that a key mapped to
`None` and an absent key are both read as `none` by `.get`, while dict
truthiness (non-emptiness) still distinguishes `{}` from `{k: None}`.
-/

namespace GarminHealth

/-- A Python dict restricted to the shape the script reads: string keys,
values that are numbers or `None`. -/
def PyDict : Type := List (String × Option ℚ)

instance : DecidableEq PyDict := by
  unfold PyDict
  infer_instance

/-- `d.get(k)` on a Python dict: `None` when the key is absent, the stored
value (possibly `None`) when present. -/
def dictGet (d : PyDict) (k : String) : Option ℚ :=
  (d.lookup k).join

/-- Python truthiness of a dict: non-empty. -/
def dictTruthy (d : PyDict) : Bool :=
  !d.isEmpty

/-- Python truthiness of an optional string (as read by `os.getenv`):
`None` and the empty string are falsy, everything else truthy. -/
def strTruthy : Option String → Bool
  | none => false
  | some s => !(s = "")

/-- Python truthiness of `hr_data : Option PyDict`: `None` is falsy, a dict
is truthy iff non-empty. -/
def optDictTruthy : Option PyDict → Bool
  | none => false
  | some d => dictTruthy d

/-- Python truthiness of `resp_data : Option (List PyDict)`: `None` is
falsy, a list is truthy iff non-empty. -/
def optListTruthy : Option (List PyDict) → Bool
  | none => false
  | some l => !l.isEmpty

/-- Python `x if x else 0` for an optional number `x`: `None` and `0` are
falsy and give `0`, any other number is returned unchanged. -/
def pyNumOr0 : Option ℚ → ℚ
  | none => 0
  | some x => if x = 0 then 0 else x

/-- The loop of `get_average_respiration`: starting from `total = 0`,
`count = 0`, add each present `averageRespirationValue` to the total and
bump the count. -/
def respFold (respiration_data : List PyDict) : ℚ × ℕ :=
  respiration_data.foldl
    (fun acc entry =>
      match dictGet entry "averageRespirationValue" with
      | some value => (acc.1 + value, acc.2 + 1)
      | none => acc)
    (0, 0)

/-- `get_average_respiration` from `garmin_health.py`: `None` for an empty
list, otherwise sum the present `averageRespirationValue` fields and count
them; `None` if none were present, else `total / count` (exact, unrounded). -/
def get_average_respiration (respiration_data : List PyDict) : Option ℚ :=
  if respiration_data.isEmpty then none
  else
    let tc := respFold respiration_data
    if tc.2 = 0 then none
    else some (tc.1 / (tc.2 : ℚ))

/-- The present values of the field, in order: what the loop sums. -/
def presentValues (respiration_data : List PyDict) : List ℚ :=
  respiration_data.filterMap (fun entry => dictGet entry "averageRespirationValue")

/-- Round-half-to-even to an integer (what Python's `round` does, on the
exact rational value). -/
def roundHalfEven (q : ℚ) : ℤ :=
  let f := ⌊q⌋
  let r := q - (f : ℚ)
  if r < 1/2 then f
  else if (1:ℚ)/2 < r then f + 1
  else if f % 2 = 0 then f else f + 1

/-- Python `round(q, 2)` on the exact rational value. -/
def pyRound2 (q : ℚ) : ℚ :=
  (roundHalfEven (q * 100) : ℚ) / 100

/-- The five environment variables read by `sync_health`. -/
structure Env where
  garmin_email : Option String
  garmin_password : Option String
  notion_token : Option String
  heart_db_id : Option String
  resp_db_id : Option String
deriving DecidableEq

/-- Result of a fetch call against the fitness service: it either raises
(with a message) or returns a value. -/
inductive Fetch (α : Type) : Type
  | raises (msg : String)
  | returns (v : α)
deriving DecidableEq

/-- The behaviour of the external world during one run: whether
`garmin.login()` raises, what each fetch call does, whether each
`notion.pages.create` call raises, and today's ISO date string. -/
structure World where
  loginFails : Bool
  hrFetch : Fetch (Option PyDict)
  respFetch : Fetch (Option (List PyDict))
  hrCreateFails : Bool
  respCreateFails : Bool
  today : String
deriving DecidableEq

/-- Which of the two `notion.pages.create` call sites produced a row. -/
inductive RowKind : Type
  | heart
  | resp
deriving DecidableEq

/-- One invocation of `notion.pages.create`: destination table, the date
property and the single numeric property. -/
structure Row where
  kind : RowKind
  table : String
  dateStart : String
  value : ℚ
deriving DecidableEq

/-- Externally observable events of a run, in order. -/
inductive Event : Type
  | login
  | fetchHR
  | fetchResp
  | create (r : Row)
  | printed (s : String)
deriving DecidableEq

/-- An uncaught error terminating the run. -/
inductive RunError : Type
  | configError
  | authError
  | uploadError (k : RowKind)
deriving DecidableEq

/-- Outcome of a run: the uncaught error, if any, and the ordered trace of
external events up to normal or abnormal termination. -/
structure Outcome where
  error : Option RunError
  events : List Event
deriving DecidableEq

/-- The `not all([garmin_email, garmin_password, notion_token])` check:
all three credential variables are truthy. -/
def credsOk (env : Env) : Bool :=
  strTruthy env.garmin_email && strTruthy env.garmin_password &&
    strTruthy env.notion_token

/-- The guarded heart-rate fetch: on an exception, print a diagnostic and
substitute `None`. Returns the value of `hr_data` and the events of this
step. -/
def fetchHRStep (w : World) : Option PyDict × List Event :=
  match w.hrFetch with
  | .raises msg =>
      (none, [.fetchHR, .printed ("Could not fetch heart-rate data: " ++ msg)])
  | .returns v => (v, [.fetchHR])

/-- The guarded respiration fetch, same policy as the heart-rate fetch. -/
def fetchRespStep (w : World) : Option (List PyDict) × List Event :=
  match w.respFetch with
  | .raises msg =>
      (none, [.fetchResp, .printed ("Could not fetch respiration data: " ++ msg)])
  | .returns v => (v, [.fetchResp])

/-- The `if hr_data and heart_db_id:` block: when both are truthy, invoke
`notion.pages.create` with the resting heart rate (`0` when the field is
falsy); the call may raise, in which case the error is not caught.
Returns the events of the block and the uncaught error, if any. -/
def heartBlock (env : Env) (w : World) (hr_data : Option PyDict) :
    List Event × Option RunError :=
  if optDictTruthy hr_data && strTruthy env.heart_db_id then
    let d := hr_data.getD []
    let resting_hr := dictGet d "restingHeartRate"
    let row : Row :=
      ⟨.heart, env.heart_db_id.getD "", w.today, pyNumOr0 resting_hr⟩
    if w.hrCreateFails then ([.create row], some (.uploadError .heart))
    else ([.create row, .printed ("Uploaded heart-rate data for " ++ w.today)], none)
  else ([], none)

/-- The `if resp_data and resp_db_id:` block: when both are truthy, run the
aggregator; if it yields a value, invoke `notion.pages.create` with the
mean rounded to two decimal places. -/
def respBlock (env : Env) (w : World) (resp_data : Option (List PyDict)) :
    List Event × Option RunError :=
  if optListTruthy resp_data && strTruthy env.resp_db_id then
    match get_average_respiration (resp_data.getD []) with
    | some avg_resp =>
        let row : Row :=
          ⟨.resp, env.resp_db_id.getD "", w.today, pyRound2 avg_resp⟩
        if w.respCreateFails then ([.create row], some (.uploadError .resp))
        else
          ([.create row, .printed ("Uploaded respiration data for " ++ w.today)],
            none)
    | none => ([], none)
  else ([], none)

/-- `sync_health` from `garmin_health.py`, as a pure function of the
environment and the external world's behaviour. -/
def sync_health (env : Env) (w : World) : Outcome :=
  if !credsOk env then ⟨some .configError, []⟩
  else if w.loginFails then ⟨some .authError, [.login]⟩
  else
    let hr := fetchHRStep w
    let hb := heartBlock env w hr.1
    match hb.2 with
    | some e => ⟨some e, .login :: (hr.2 ++ hb.1)⟩
    | none =>
        let rp := fetchRespStep w
        let rb := respBlock env w rp.1
        ⟨rb.2, .login :: (hr.2 ++ hb.1 ++ rp.2 ++ rb.1)⟩

/-- The rows among a list of events. -/
def createsOf (evs : List Event) : List Row :=
  evs.filterMap (fun e => match e with | .create r => some r | _ => none)

/-- The rows passed to `notion.pages.create` during a run (invoked calls,
whether or not the call then raised). -/
def createdRows (o : Outcome) : List Row :=
  createsOf o.events

/-- The `create` calls of a run at one of the two call sites. -/
def createsOfKind (o : Outcome) (k : RowKind) : List Row :=
  (createdRows o).filter (fun r => r.kind = k)

/-- The value of `hr_data` after the guarded heart-rate fetch. -/
def hrDataOf (w : World) : Option PyDict :=
  (fetchHRStep w).1

/-- The value of `resp_data` after the guarded respiration fetch. -/
def respDataOf (w : World) : Option (List PyDict) :=
  (fetchRespStep w).1

/-- A sample fully-configured environment, used in concrete instantiations. -/
def envA : Env :=
  ⟨some "e", some "p", some "t", some "H", some "R"⟩

/-- A sample world where everything succeeds: resting heart rate `60`,
respiration samples `14` and `16`. -/
def wA : World :=
  ⟨false, .returns (some [("restingHeartRate", some 60)]),
    .returns (some [[("averageRespirationValue", some 14)],
      [("averageRespirationValue", some 16)]]),
    false, false, "2026-10-12"⟩

/-! ### Aggregator lemmas -/

lemma respFold_go (l : List PyDict) (t : ℚ) (c : ℕ) :
    l.foldl
      (fun acc entry =>
        match dictGet entry "averageRespirationValue" with
        | some value => (acc.1 + value, acc.2 + 1)
        | none => acc)
      (t, c) =
      (t + (presentValues l).sum, c + (presentValues l).length) := by
  induction l generalizing t c with
  | nil => simp [presentValues]
  | cons d l ih =>
      simp only [List.foldl_cons, presentValues, List.filterMap_cons]
      cases h : dictGet d "averageRespirationValue" with
      | none => simpa [h, presentValues] using ih t c
      | some v =>
          simp only [h]
          rw [ih]
          simp [presentValues, add_assoc, add_comm, add_left_comm]

lemma respFold_spec (l : List PyDict) :
    respFold l = ((presentValues l).sum, (presentValues l).length) := by
  simpa using respFold_go l 0 0

lemma get_average_respiration_eq (l : List PyDict) :
    get_average_respiration l =
      if l.isEmpty then none
      else if (presentValues l).length = 0 then none
      else some ((presentValues l).sum / ((presentValues l).length : ℚ)) := by
  simp only [get_average_respiration, respFold_spec]

/-- **C1**: for every non-empty list of records with at least one present
`averageRespirationValue`, `get_average_respiration` returns exactly the sum
of the present values divided by their count, with no rounding applied. -/
theorem get_average_respiration_is_exact_mean (l : List PyDict)
    (h1 : l ≠ []) (h2 : presentValues l ≠ []) :
    get_average_respiration l =
      some ((presentValues l).sum / ((presentValues l).length : ℚ)) := by
  rw [get_average_respiration_eq]
  simp [h1, h2, List.isEmpty_iff, List.length_eq_zero]

/-- Concrete witness for **C1**: records with present values `14` and `16`
and one absent value; the mean is `15`, unrounded. -/
theorem get_average_respiration_is_exact_mean_witness :
    ([[("averageRespirationValue", some (14 : ℚ))],
      [("averageRespirationValue", none)],
      [("averageRespirationValue", some 16)]] : List PyDict) ≠ [] ∧
    presentValues
      [[("averageRespirationValue", some 14)],
        [("averageRespirationValue", none)],
        [("averageRespirationValue", some 16)]] ≠ [] ∧
    get_average_respiration
      [[("averageRespirationValue", some 14)],
        [("averageRespirationValue", none)],
        [("averageRespirationValue", some 16)]] = some 15 := by
  refine ⟨by decide, by decide, ?_⟩
  rw [get_average_respiration_is_exact_mean _ (by decide) (by decide)]
  have hp : presentValues
      [[("averageRespirationValue", some 14)],
        [("averageRespirationValue", none)],
        [("averageRespirationValue", some 16)]] = [(14 : ℚ), 16] := rfl
  rw [hp]
  norm_num

/-- **C6**: for the empty list, and for any list in which every record's
`averageRespirationValue` is absent, `get_average_respiration` returns
`none` — not zero and not an error. -/
theorem get_average_respiration_none_when_no_values (l : List PyDict)
    (h : l = [] ∨ ∀ d ∈ l, dictGet d "averageRespirationValue" = none) :
    get_average_respiration l = none := by
  have hpv : presentValues l = [] := by
    rcases h with h | h
    · simp [h, presentValues]
    · simp only [presentValues, List.filterMap_eq_nil_iff]
      exact h
  rw [get_average_respiration_eq]
  rcases Decidable.em (l = []) with h0 | h0 <;>
    simp [h0, hpv]

/-- Concrete witness for **C6**: the empty list and an all-absent list both
give `none`. -/
theorem get_average_respiration_none_when_no_values_witness :
    get_average_respiration [] = none ∧
    get_average_respiration
      [[("averageRespirationValue", none)], [("other", some 3)]] = none := by
  constructor
  · exact get_average_respiration_none_when_no_values [] (Or.inl rfl)
  · exact get_average_respiration_none_when_no_values _ (Or.inr (by decide))

/-- **C8**: `get_average_respiration` is invariant under permutation of the
record list: the result is insensitive to record order and to how present
and absent entries are interleaved. -/
theorem get_average_respiration_perm_invariant (l l' : List PyDict)
    (h : l.Perm l') :
    get_average_respiration l = get_average_respiration l' := by
  have hpv : (presentValues l).Perm (presentValues l') :=
    h.filterMap (fun entry => dictGet entry "averageRespirationValue")
  rw [get_average_respiration_eq, get_average_respiration_eq]
  have hplen : (presentValues l).length = (presentValues l').length :=
    hpv.length_eq
  have hsum : (presentValues l).sum = (presentValues l').sum := hpv.sum_eq
  rcases Decidable.em (l = []) with h0 | h0
  · have h0' : l' = [] := by
      subst h0
      exact h.symm.eq_nil
    simp [h0, h0']
  · have h0' : l' ≠ [] := by
      intro he
      subst he
      exact h0 h.eq_nil
    simp [List.isEmpty_iff, h0, h0', hplen, hsum]

/-- Concrete witness for **C8**: a reordering of a three-record list gives
the same result. -/
theorem get_average_respiration_perm_invariant_witness :
    get_average_respiration
      [[("averageRespirationValue", some 14)],
        [("averageRespirationValue", none)],
        [("averageRespirationValue", some 16)]] =
      get_average_respiration
        [[("averageRespirationValue", some 16)],
          [("averageRespirationValue", some 14)],
          [("averageRespirationValue", none)]] :=
  get_average_respiration_perm_invariant _ _ (by decide)

/-- **C9**: records whose `averageRespirationValue` is absent are simply
skipped: dropping them from the input never changes the result.  (The
embedding is a total function, so no input makes it raise.) -/
theorem get_average_respiration_skips_absent (l : List PyDict) :
    get_average_respiration l =
      get_average_respiration
        (l.filter (fun d => (dictGet d "averageRespirationValue").isSome)) := by
  have hpv : presentValues
      (l.filter (fun d => (dictGet d "averageRespirationValue").isSome)) =
      presentValues l := by
    induction l with
    | nil => rfl
    | cons d l ih =>
        by_cases h : (dictGet d "averageRespirationValue").isSome
        · simp only [presentValues, List.filter_cons, h, if_pos,
            List.filterMap_cons] at ih ⊢
          rcases Option.isSome_iff_exists.mp h with ⟨v, hv⟩
          simp [hv, presentValues] at ih ⊢
          exact ih
        · have h0 : dictGet d "averageRespirationValue" = none :=
            Option.not_isSome_iff_eq_none.mp (by simpa using h)
          simp only [presentValues, List.filter_cons, h0,
            List.filterMap_cons] at ih ⊢
          simp [h0, presentValues] at ih ⊢
          exact ih
  rw [get_average_respiration_eq, get_average_respiration_eq, hpv]
  rcases Decidable.em ((presentValues l).length = 0) with hz | hz
  · simp [hz]
  · have hne : ¬ (l.filter
        (fun d => (dictGet d "averageRespirationValue").isSome)).isEmpty := by
      intro hemp
      have : presentValues
          (l.filter (fun d => (dictGet d "averageRespirationValue").isSome)) =
          [] := by
        rw [List.isEmpty_iff] at hemp
        simp [presentValues, hemp]
      rw [hpv] at this
      simp [this] at hz
    have hlne : ¬ l.isEmpty := by
      intro hemp
      rw [List.isEmpty_iff] at hemp
      simp [presentValues, hemp] at hz
    simp [hne, hlne, hz]

/-! ### Orchestrator lemmas -/

lemma pyNumOr0_eq_getD (x : Option ℚ) : pyNumOr0 x = x.getD 0 := by
  cases x with
  | none => rfl
  | some v =>
      by_cases h : v = 0 <;> simp [pyNumOr0, h]

lemma sync_config_fail (env : Env) (w : World) (h : credsOk env = false) :
    sync_health env w = ⟨some .configError, []⟩ := by
  simp [sync_health, h]

lemma sync_auth_fail (env : Env) (w : World) (h1 : credsOk env = true)
    (h2 : w.loginFails = true) :
    sync_health env w = ⟨some .authError, [.login]⟩ := by
  simp [sync_health, h1, h2]

lemma sync_health_eq (env : Env) (w : World) (h1 : credsOk env = true)
    (h2 : w.loginFails = false) :
    sync_health env w =
      match (heartBlock env w (hrDataOf w)).2 with
      | some e =>
          ⟨some e, .login :: ((fetchHRStep w).2 ++ (heartBlock env w (hrDataOf w)).1)⟩
      | none =>
          ⟨(respBlock env w (respDataOf w)).2,
            .login :: ((fetchHRStep w).2 ++ (heartBlock env w (hrDataOf w)).1 ++
              (fetchRespStep w).2 ++ (respBlock env w (respDataOf w)).1)⟩ := by
  simp only [sync_health, h1, h2, Bool.not_true, hrDataOf, respDataOf]
  rfl

lemma createsOf_append (a b : List Event) :
    createsOf (a ++ b) = createsOf a ++ createsOf b := by
  simp [createsOf]

lemma createsOf_login_cons (evs : List Event) :
    createsOf (Event.login :: evs) = createsOf evs := by
  simp [createsOf]

lemma createsOf_fetchHR (w : World) : createsOf (fetchHRStep w).2 = [] := by
  cases h : w.hrFetch <;> simp [fetchHRStep, h, createsOf]

lemma createsOf_fetchResp (w : World) : createsOf (fetchRespStep w).2 = [] := by
  cases h : w.respFetch <;> simp [fetchRespStep, h, createsOf]

lemma heartBlock_creates_eq (env : Env) (w : World) (x : Option PyDict) :
    createsOf (heartBlock env w x).1 =
      if optDictTruthy x && strTruthy env.heart_db_id then
        [⟨.heart, env.heart_db_id.getD "", w.today,
          pyNumOr0 (dictGet (x.getD []) "restingHeartRate")⟩]
      else [] := by
  unfold heartBlock
  split
  · split <;> simp_all [createsOf]
  · simp_all [createsOf]

lemma heartBlock_err_eq (env : Env) (w : World) (x : Option PyDict) :
    (heartBlock env w x).2 =
      if (optDictTruthy x && strTruthy env.heart_db_id) && w.hrCreateFails then
        some (.uploadError .heart)
      else none := by
  by_cases hg : (optDictTruthy x && strTruthy env.heart_db_id) = true
  · cases hc : w.hrCreateFails <;> simp [heartBlock, hg, hc]
  · have hg' : (optDictTruthy x && strTruthy env.heart_db_id) = false := by
      simpa using hg
    simp [heartBlock, hg']

lemma respBlock_creates_eq (env : Env) (w : World) (x : Option (List PyDict)) :
    createsOf (respBlock env w x).1 =
      if optListTruthy x && strTruthy env.resp_db_id then
        ((get_average_respiration (x.getD [])).map
          (fun avg => (⟨.resp, env.resp_db_id.getD "", w.today, pyRound2 avg⟩ : Row))).toList
      else [] := by
  unfold respBlock
  split
  · cases h : get_average_respiration (x.getD []) with
    | none => simp_all [createsOf]
    | some avg =>
        simp_all only [if_true]
        split <;> simp_all [createsOf]
  · simp_all [createsOf]

lemma respBlock_err_eq (env : Env) (w : World) (x : Option (List PyDict)) :
    (respBlock env w x).2 =
      if (optListTruthy x && strTruthy env.resp_db_id) &&
          ((get_average_respiration (x.getD [])).isSome && w.respCreateFails) then
        some (.uploadError .resp)
      else none := by
  by_cases hg : (optListTruthy x && strTruthy env.resp_db_id) = true
  · cases h : get_average_respiration (x.getD []) with
    | none => simp [respBlock, hg, h]
    | some avg =>
        cases hc : w.respCreateFails <;> simp [respBlock, hg, h, hc]
  · have hg' : (optListTruthy x && strTruthy env.resp_db_id) = false := by
      simpa using hg
    simp [respBlock, hg']

lemma createdRows_sync (env : Env) (w : World) (h1 : credsOk env = true)
    (h2 : w.loginFails = false) :
    createdRows (sync_health env w) =
      createsOf (heartBlock env w (hrDataOf w)).1 ++
        (match (heartBlock env w (hrDataOf w)).2 with
         | some _ => []
         | none => createsOf (respBlock env w (respDataOf w)).1) := by
  rw [createdRows, sync_health_eq env w h1 h2]
  cases h : (heartBlock env w (hrDataOf w)).2 <;>
    simp [h, createsOf_login_cons, createsOf_append, createsOf_fetchHR,
      createsOf_fetchResp]

lemma error_sync (env : Env) (w : World) (h1 : credsOk env = true)
    (h2 : w.loginFails = false) :
    (sync_health env w).error =
      match (heartBlock env w (hrDataOf w)).2 with
      | some e => some e
      | none => (respBlock env w (respDataOf w)).2 := by
  rw [sync_health_eq env w h1 h2]
  cases h : (heartBlock env w (hrDataOf w)).2 <;> simp [h]

lemma createsOfKind_heart_eq (env : Env) (w : World) (h1 : credsOk env = true)
    (h2 : w.loginFails = false) :
    createsOfKind (sync_health env w) RowKind.heart =
      if optDictTruthy (hrDataOf w) && strTruthy env.heart_db_id then
        [⟨.heart, env.heart_db_id.getD "", w.today,
          pyNumOr0 (dictGet ((hrDataOf w).getD []) "restingHeartRate")⟩]
      else [] := by
  rw [createsOfKind, createdRows_sync env w h1 h2, heartBlock_creates_eq]
  cases h : (heartBlock env w (hrDataOf w)).2 with
  | some e =>
      cases hg : (optDictTruthy (hrDataOf w) && strTruthy env.heart_db_id) <;>
        simp [hg]
  | none =>
      rw [respBlock_creates_eq]
      cases hg : (optDictTruthy (hrDataOf w) && strTruthy env.heart_db_id) <;>
        cases hrg : (optListTruthy (respDataOf w) && strTruthy env.resp_db_id) <;>
          cases havg : get_average_respiration ((respDataOf w).getD []) <;>
            simp [hg, hrg, havg]

lemma createsOfKind_resp_eq (env : Env) (w : World) (h1 : credsOk env = true)
    (h2 : w.loginFails = false) :
    createsOfKind (sync_health env w) RowKind.resp =
      if (optDictTruthy (hrDataOf w) && strTruthy env.heart_db_id) &&
          w.hrCreateFails then []
      else if optListTruthy (respDataOf w) && strTruthy env.resp_db_id then
        ((get_average_respiration ((respDataOf w).getD [])).map
          (fun avg =>
            (⟨.resp, env.resp_db_id.getD "", w.today, pyRound2 avg⟩ : Row))).toList
      else [] := by
  rw [createsOfKind, createdRows_sync env w h1 h2]
  cases hg : (optDictTruthy (hrDataOf w) && strTruthy env.heart_db_id) <;>
    cases hc : w.hrCreateFails <;>
      cases hrg : (optListTruthy (respDataOf w) && strTruthy env.resp_db_id) <;>
        cases havg : get_average_respiration ((respDataOf w).getD []) <;>
          simp [heartBlock_creates_eq, heartBlock_err_eq, respBlock_creates_eq,
            hg, hc, hrg, havg]

lemma createsOfKind_nil_of_fail (env : Env) (w : World) (k : RowKind)
    (h : credsOk env = false ∨ w.loginFails = true) :
    createsOfKind (sync_health env w) k = [] := by
  rcases h with h | h
  · simp [createsOfKind, sync_config_fail env w h, createdRows, createsOf]
  · cases h1 : credsOk env with
    | false => simp [createsOfKind, sync_config_fail env w h1, createdRows, createsOf]
    | true => simp [createsOfKind, sync_auth_fail env w h1 h, createdRows, createsOf]

/-! ### Orchestrator theorems -/

/-- **C2**: a heart-rate row is created only when the fetched heart-rate
data is truthy and the heart-rate table identifier is configured; a
respiration row only when the respiration data is truthy, the respiration
table identifier is configured and the aggregator yields a value; every
respiration row carries the aggregator's mean rounded to two decimal
places.  In particular an unconfigured table identifier means the
corresponding `notion.pages.create` call site is never invoked. -/
theorem sync_rows_only_when_configured (env : Env) (w : World) :
    (createsOfKind (sync_health env w) RowKind.heart ≠ [] →
        optDictTruthy (hrDataOf w) = true ∧ strTruthy env.heart_db_id = true) ∧
    (createsOfKind (sync_health env w) RowKind.resp ≠ [] →
        optListTruthy (respDataOf w) = true ∧ strTruthy env.resp_db_id = true ∧
        (get_average_respiration ((respDataOf w).getD [])).isSome = true) ∧
    (∀ r ∈ createsOfKind (sync_health env w) RowKind.resp,
        ∃ avg, get_average_respiration ((respDataOf w).getD []) = some avg ∧
          r.value = pyRound2 avg) := by
  cases h1 : credsOk env with
  | false => simp [createsOfKind_nil_of_fail env w _ (Or.inl h1)]
  | true =>
    cases h2 : w.loginFails with
    | true => simp [createsOfKind_nil_of_fail env w _ (Or.inr h2)]
    | false =>
      refine ⟨?_, ?_, ?_⟩
      · rw [createsOfKind_heart_eq env w h1 h2]
        cases hg : (optDictTruthy (hrDataOf w) && strTruthy env.heart_db_id) with
        | false => simp
        | true =>
            intro _
            exact ⟨(Bool.and_eq_true _ _ |>.mp hg).1,
              (Bool.and_eq_true _ _ |>.mp hg).2⟩
      · rw [createsOfKind_resp_eq env w h1 h2]
        cases hc : ((optDictTruthy (hrDataOf w) && strTruthy env.heart_db_id) &&
            w.hrCreateFails) with
        | true => simp
        | false =>
            cases hrg : (optListTruthy (respDataOf w) &&
                strTruthy env.resp_db_id) with
            | false => simp
            | true =>
                cases havg : get_average_respiration ((respDataOf w).getD []) with
                | none => simp [havg]
                | some avg =>
                    intro _
                    exact ⟨(Bool.and_eq_true _ _ |>.mp hrg).1,
                      (Bool.and_eq_true _ _ |>.mp hrg).2, by simp [havg]⟩
      · rw [createsOfKind_resp_eq env w h1 h2]
        cases hc : ((optDictTruthy (hrDataOf w) && strTruthy env.heart_db_id) &&
            w.hrCreateFails) with
        | true => simp
        | false =>
            cases hrg : (optListTruthy (respDataOf w) &&
                strTruthy env.resp_db_id) with
            | false => simp
            | true =>
                cases havg : get_average_respiration ((respDataOf w).getD []) with
                | none => simp [havg]
                | some avg =>
                    intro r hr
                    simp [havg] at hr
                    exact ⟨avg, rfl, by simp [hr]⟩

/-- Concrete witness for **C2**: with everything configured and data
present, the respiration row created carries the rounded mean. -/
theorem sync_rows_only_when_configured_witness :
    ∃ avg,
      get_average_respiration ((respDataOf wA).getD []) = some avg ∧
      (⟨RowKind.resp, "R", "2026-10-12", 15⟩ : Row).value = pyRound2 avg := by
  have hp : get_average_respiration ((respDataOf wA).getD []) = some 15 := by
    have hd : (respDataOf wA).getD [] =
        [[("averageRespirationValue", some 14)],
          [("averageRespirationValue", some 16)]] := rfl
    rw [hd, get_average_respiration_eq]
    have hpv : presentValues
        [[("averageRespirationValue", some 14)],
          [("averageRespirationValue", some 16)]] = [(14 : ℚ), 16] := rfl
    rw [hpv]
    norm_num
  have h15 : pyRound2 15 = 15 := by
    unfold pyRound2 roundHalfEven
    norm_num
  refine (sync_rows_only_when_configured envA wA).2.2
    ⟨RowKind.resp, "R", "2026-10-12", 15⟩ ?_
  rw [createsOfKind_resp_eq envA wA (by decide) rfl, hp]
  have hc1 : ((optDictTruthy (hrDataOf wA) && strTruthy envA.heart_db_id) &&
      wA.hrCreateFails) = false := by decide
  have hc2 : (optListTruthy (respDataOf wA) && strTruthy envA.resp_db_id) =
      true := by decide
  rw [hc1, hc2]
  simp [envA, wA, h15]

/-- **C3**: a missing fitness account identifier, credential or notes auth
token makes `sync_health` terminate with the configuration error before any
external event, with no rows created; when all three are present the
configuration error never occurs, regardless of the table identifiers. -/
theorem sync_missing_credentials (env : Env) (w : World) :
    ((env.garmin_email = none ∨ env.garmin_password = none ∨
        env.notion_token = none) →
      sync_health env w = ⟨some .configError, []⟩) ∧
    (strTruthy env.garmin_email = true → strTruthy env.garmin_password = true →
      strTruthy env.notion_token = true →
      (sync_health env w).error ≠ some .configError) := by
  constructor
  · intro h
    apply sync_config_fail
    rcases h with h | h | h <;> simp [credsOk, h, strTruthy]
  · intro he hp ht
    have h1 : credsOk env = true := by simp [credsOk, he, hp, ht]
    cases h2 : w.loginFails with
    | true => simp [sync_auth_fail env w h1 h2]
    | false =>
        rw [error_sync env w h1 h2, heartBlock_err_eq, respBlock_err_eq]
        cases hc : ((optDictTruthy (hrDataOf w) && strTruthy env.heart_db_id) &&
            w.hrCreateFails) <;>
          cases hrc : ((optListTruthy (respDataOf w) &&
              strTruthy env.resp_db_id) &&
            ((get_average_respiration ((respDataOf w).getD [])).isSome &&
              w.respCreateFails)) <;>
          simp [hc, hrc]

/-- Concrete witness for **C3**: a missing email halts the run with no
events; with credentials present and no table identifiers, no
configuration error. -/
theorem sync_missing_credentials_witness :
    sync_health ⟨none, some "p", some "t", some "H", some "R"⟩
        ⟨false, .returns none, .returns none, false, false, "D"⟩ =
      ⟨some .configError, []⟩ ∧
    (sync_health ⟨some "e", some "p", some "t", none, none⟩
        ⟨false, .returns none, .returns none, false, false, "D"⟩).error ≠
      some .configError := by
  constructor
  · exact (sync_missing_credentials _ _).1 (Or.inl rfl)
  · exact (sync_missing_credentials _ _).2 (by decide) (by decide) (by decide)

lemma fetchResp_not_in_heartBlock (env : Env) (w : World) (x : Option PyDict) :
    Event.fetchResp ∉ (heartBlock env w x).1 := by
  unfold heartBlock
  split
  · split <;> simp
  · simp

lemma fetchResp_not_in_fetchHRStep (w : World) :
    Event.fetchResp ∉ (fetchHRStep w).2 := by
  cases h : w.hrFetch <;> simp [fetchHRStep, h]

/-- **C4**: when the heart-rate fetch raises, the exception is caught at
the call site: a diagnostic is printed, no heart-rate row is created, and
the run still performs the respiration fetch and attempts the respiration
upload exactly when its own conditions hold. -/
theorem sync_hr_fetch_failure_recovered (env : Env) (w : World) (m : String)
    (h1 : credsOk env = true) (h2 : w.loginFails = false)
    (h3 : w.hrFetch = .raises m) :
    Event.printed ("Could not fetch heart-rate data: " ++ m) ∈
      (sync_health env w).events ∧
    createsOfKind (sync_health env w) RowKind.heart = [] ∧
    Event.fetchResp ∈ (sync_health env w).events ∧
    (createsOfKind (sync_health env w) RowKind.resp ≠ [] ↔
      (optListTruthy (respDataOf w) = true ∧ strTruthy env.resp_db_id = true ∧
        (get_average_respiration ((respDataOf w).getD [])).isSome = true)) := by
  have hnone : hrDataOf w = none := by simp [hrDataOf, fetchHRStep, h3]
  have hhb : heartBlock env w (hrDataOf w) = ([], none) := by
    rw [hnone]
    rfl
  refine ⟨?_, ?_, ?_, ?_⟩
  · rw [sync_health_eq env w h1 h2, hhb]
    simp [fetchHRStep, h3]
  · rw [createsOfKind_heart_eq env w h1 h2, hnone]
    simp [optDictTruthy]
  · rw [sync_health_eq env w h1 h2, hhb]
    cases hr : w.respFetch <;> simp [fetchRespStep, hr]
  · rw [createsOfKind_resp_eq env w h1 h2, hnone]
    simp only [optDictTruthy, Bool.false_and, Bool.false_eq_true, if_false,
      ite_false]
    cases hrg : (optListTruthy (respDataOf w) && strTruthy env.resp_db_id) with
    | false =>
        constructor
        · intro hcontra
          simp [hrg] at hcontra
        · rintro ⟨hA, hB, _⟩
          rw [hA, hB] at hrg
          simp at hrg
    | true =>
        obtain ⟨hA, hB⟩ := (Bool.and_eq_true _ _).mp hrg
        cases havg : get_average_respiration ((respDataOf w).getD []) with
        | none => simp [hrg, hA, hB, havg]
        | some avg => simp [hrg, hA, hB, havg]

/-- Concrete witness for **C4**: heart-rate fetch raises `"boom"`, yet the
respiration data still leads to an upload. -/
theorem sync_hr_fetch_failure_recovered_witness :
    Event.printed ("Could not fetch heart-rate data: " ++ "boom") ∈
      (sync_health envA
        ⟨false, .raises "boom",
          .returns (some [[("averageRespirationValue", some 14)],
            [("averageRespirationValue", some 16)]]),
          false, false, "D"⟩).events ∧
    createsOfKind
      (sync_health envA
        ⟨false, .raises "boom",
          .returns (some [[("averageRespirationValue", some 14)],
            [("averageRespirationValue", some 16)]]),
          false, false, "D"⟩) RowKind.heart = [] ∧
    Event.fetchResp ∈
      (sync_health envA
        ⟨false, .raises "boom",
          .returns (some [[("averageRespirationValue", some 14)],
            [("averageRespirationValue", some 16)]]),
          false, false, "D"⟩).events ∧
    (createsOfKind
        (sync_health envA
          ⟨false, .raises "boom",
            .returns (some [[("averageRespirationValue", some 14)],
              [("averageRespirationValue", some 16)]]),
            false, false, "D"⟩) RowKind.resp ≠ [] ↔
      (optListTruthy
          (respDataOf
            ⟨false, .raises "boom",
              .returns (some [[("averageRespirationValue", some 14)],
                [("averageRespirationValue", some 16)]]),
              false, false, "D"⟩) = true ∧
        strTruthy envA.resp_db_id = true ∧
        (get_average_respiration
            ((respDataOf
                ⟨false, .raises "boom",
                  .returns (some [[("averageRespirationValue", some 14)],
                    [("averageRespirationValue", some 16)]]),
                  false, false, "D"⟩).getD [])).isSome = true)) :=
  sync_hr_fetch_failure_recovered envA
    ⟨false, .raises "boom",
      .returns (some [[("averageRespirationValue", some 14)],
        [("averageRespirationValue", some 16)]]),
      false, false, "D"⟩ "boom" (by decide) rfl rfl

/-- **C5**: with heart-rate data present (a truthy dict) and the table
configured, the heart-rate row is always created; its value is `0` when
`restingHeartRate` is absent, and the stored value otherwise. -/
theorem sync_hr_missing_value_defaults_zero (env : Env) (w : World)
    (d : PyDict) (h1 : credsOk env = true) (h2 : w.loginFails = false)
    (h3 : w.hrFetch = .returns (some d)) (h4 : dictTruthy d = true)
    (h5 : strTruthy env.heart_db_id = true) :
    createsOfKind (sync_health env w) RowKind.heart =
      [⟨RowKind.heart, env.heart_db_id.getD "", w.today,
        (dictGet d "restingHeartRate").getD 0⟩] := by
  have hd : hrDataOf w = some d := by simp [hrDataOf, fetchHRStep, h3]
  rw [createsOfKind_heart_eq env w h1 h2, hd]
  simp [optDictTruthy, h4, h5, pyNumOr0_eq_getD]

/-- Concrete witness for **C5**: `{restingHeartRate: None}` with the table
configured still produces a row, with value `0`. -/
theorem sync_hr_missing_value_defaults_zero_witness :
    createsOfKind
      (sync_health envA
        ⟨false, .returns (some [("restingHeartRate", none)]), .returns none,
          false, false, "D"⟩) RowKind.heart =
      [⟨RowKind.heart, "H", "D", 0⟩] := by
  have h := sync_hr_missing_value_defaults_zero envA
    ⟨false, .returns (some [("restingHeartRate", none)]), .returns none,
      false, false, "D"⟩
    [("restingHeartRate", none)] (by decide) rfl rfl (by decide) (by decide)
  exact h

/-- **C7**: the record-creation calls are not wrapped in a handler: when
the heart-rate creation raises, the error propagates, the run stops there,
and the respiration fetch and upload are never attempted. -/
theorem sync_upload_failure_propagates (env : Env) (w : World)
    (h1 : credsOk env = true) (h2 : w.loginFails = false)
    (h3 : optDictTruthy (hrDataOf w) = true)
    (h4 : strTruthy env.heart_db_id = true)
    (h5 : w.hrCreateFails = true) :
    (sync_health env w).error = some (.uploadError .heart) ∧
    Event.fetchResp ∉ (sync_health env w).events ∧
    createsOfKind (sync_health env w) RowKind.resp = [] ∧
    createsOfKind (sync_health env w) RowKind.heart ≠ [] := by
  have herr : (heartBlock env w (hrDataOf w)).2 =
      some (.uploadError .heart) := by
    rw [heartBlock_err_eq]
    simp [h3, h4, h5]
  refine ⟨?_, ?_, ?_, ?_⟩
  · rw [error_sync env w h1 h2, herr]
  · rw [sync_health_eq env w h1 h2, herr]
    simp only [List.mem_cons, List.mem_append]
    push_neg
    exact ⟨by simp, fetchResp_not_in_fetchHRStep w,
      fetchResp_not_in_heartBlock env w (hrDataOf w)⟩
  · rw [createsOfKind_resp_eq env w h1 h2]
    simp [h3, h4, h5]
  · rw [createsOfKind_heart_eq env w h1 h2]
    simp [h3, h4]

/-- Concrete witness for **C7**: a failing heart-rate creation stops the
run before the respiration fetch. -/
theorem sync_upload_failure_propagates_witness :
    (sync_health envA
        ⟨false, .returns (some [("restingHeartRate", some 60)]),
          .returns (some [[("averageRespirationValue", some 14)]]),
          true, false, "D"⟩).error = some (.uploadError .heart) ∧
    Event.fetchResp ∉
      (sync_health envA
        ⟨false, .returns (some [("restingHeartRate", some 60)]),
          .returns (some [[("averageRespirationValue", some 14)]]),
          true, false, "D"⟩).events ∧
    createsOfKind
      (sync_health envA
        ⟨false, .returns (some [("restingHeartRate", some 60)]),
          .returns (some [[("averageRespirationValue", some 14)]]),
          true, false, "D"⟩) RowKind.resp = [] ∧
    createsOfKind
      (sync_health envA
        ⟨false, .returns (some [("restingHeartRate", some 60)]),
          .returns (some [[("averageRespirationValue", some 14)]]),
          true, false, "D"⟩) RowKind.heart ≠ [] :=
  sync_upload_failure_propagates envA
    ⟨false, .returns (some [("restingHeartRate", some 60)]),
      .returns (some [[("averageRespirationValue", some 14)]]),
      true, false, "D"⟩ (by decide) rfl (by decide) (by decide) rfl

/-- **C10**: because every configuration check is a truthiness check, a
present-but-empty string behaves exactly like an absent variable: an empty
credential or token makes the run terminate with the configuration error
and no events, and an empty table identifier silently disables that
metric's upload. -/
theorem sync_empty_string_like_absent (env : Env) (w : World) :
    ((env.garmin_email = some "" ∨ env.garmin_password = some "" ∨
        env.notion_token = some "") →
      sync_health env w = ⟨some .configError, []⟩) ∧
    (env.heart_db_id = some "" →
      createsOfKind (sync_health env w) RowKind.heart = []) ∧
    (env.resp_db_id = some "" →
      createsOfKind (sync_health env w) RowKind.resp = []) := by
  refine ⟨?_, ?_, ?_⟩
  · intro h
    apply sync_config_fail
    rcases h with h | h | h <;> simp [credsOk, h, strTruthy]
  · intro h
    cases h1 : credsOk env with
    | false => exact createsOfKind_nil_of_fail env w _ (Or.inl h1)
    | true =>
        cases h2 : w.loginFails with
        | true => exact createsOfKind_nil_of_fail env w _ (Or.inr h2)
        | false =>
            rw [createsOfKind_heart_eq env w h1 h2]
            simp [h, strTruthy]
  · intro h
    cases h1 : credsOk env with
    | false => exact createsOfKind_nil_of_fail env w _ (Or.inl h1)
    | true =>
        cases h2 : w.loginFails with
        | true => exact createsOfKind_nil_of_fail env w _ (Or.inr h2)
        | false =>
            rw [createsOfKind_resp_eq env w h1 h2]
            cases hc : ((optDictTruthy (hrDataOf w) &&
                strTruthy env.heart_db_id) && w.hrCreateFails) <;>
              simp [hc, h, strTruthy]

/-- Concrete witness for **C10**: an empty-string email is fatal; empty
table identifiers disable both uploads even with data present. -/
theorem sync_empty_string_like_absent_witness :
    sync_health ⟨some "", some "p", some "t", some "H", some "R"⟩ wA =
      ⟨some .configError, []⟩ ∧
    createsOfKind
      (sync_health ⟨some "e", some "p", some "t", some "", some ""⟩ wA)
      RowKind.heart = [] ∧
    createsOfKind
      (sync_health ⟨some "e", some "p", some "t", some "", some ""⟩ wA)
      RowKind.resp = [] :=
  ⟨(sync_empty_string_like_absent ⟨some "", some "p", some "t", some "H",
      some "R"⟩ wA).1 (Or.inl rfl),
    (sync_empty_string_like_absent ⟨some "e", some "p", some "t", some "",
      some ""⟩ wA).2.1 rfl,
    (sync_empty_string_like_absent ⟨some "e", some "p", some "t", some "",
      some ""⟩ wA).2.2 rfl⟩

end GarminHealth
